import Mathlib

/-!
Verification of the checkout/cart test-orchestration model of the Sylius QA
automation suite. Each definition is a shallow embedding of a function or a
test scenario of the repository; JavaScript numbers are modelled as `Int`
(quantities, prices in cents) or `Nat` (HTTP status codes), nullable JSON
fields as `Option`, and a Playwright `expect` as a boolean check that aborts
the scenario when it fails.
-/

/-! ## Data model: remote resources as observed through the API -/

/-- A line item of an order, as read from the order JSON body.
`subtotal` is optional: the price-integrity test reads it with
`item.subtotal ?? baseSubtotal`, so an absent field must be representable. -/
structure LineItem where
  quantity : Int
  unitPrice : Int
  subtotal : Option Int
  total : Int
deriving DecidableEq

/-- An order/cart body: checkout state, order state, totals and the ids of
its shipment and payment sub-resources. -/
structure Order where
  checkoutState : String
  state : String
  total : Int
  shipments : List Nat
  payments : List Nat
deriving DecidableEq

/-- An HTTP response whose body is parsed as an order. -/
structure ApiResp where
  ok : Bool
  status : Nat
  order : Order
deriving DecidableEq

/-- A response listing eligible shipping or payment methods: the scenario
reads the member array of the hydra collection envelope, keeping each
member as its method code. -/
structure MethodsResp where
  ok : Bool
  methods : List String
deriving DecidableEq

/-- A response to a DELETE call, as observed during teardown. -/
structure DelResp where
  ok : Bool
  status : Nat
deriving DecidableEq

/-! ## C9: cross-user cart access check
Embeds `security-authorization.spec.ts`, test
`User cannot access another users cart`: after user B issues the GET on
user A cart token, the test runs `expect([403, 404]).toContain(status)`. -/

/-- The pass condition of the cross-user authorization check:
`[403, 404].toContain(status)`. -/
def crossUserCartCheck (status : Nat) : Bool :=
  [403, 404].contains status

/-! ## C4: zero and negative quantity checks
Embeds `Zero quantity items are not allowed` (asserts `ok` falsy and
`[400, 422].toContain(status)`) and
`Negative quantity items are not allowed` (asserts only `ok` falsy; the
status is read solely for the console log). -/

/-- Pass condition of the zero-quantity scenario after the add-item call:
`expect(addResp.ok()).toBeFalsy()` then `expect([400, 422]).toContain(status)`. -/
def zeroQtyCheck (ok : Bool) (status : Nat) : Bool :=
  !ok && [400, 422].contains status

/-- Pass condition of the negative-quantity scenario after the add-item call:
only `expect(addResp.ok()).toBeFalsy()`; the status argument mirrors the
`addResp.status()` read that is used for logging alone. -/
def negQtyCheck (ok : Bool) (status : Nat) : Bool :=
  !ok

/-! ## C2: oversell check
Embeds `stock-validation.spec.ts`, test
`Cannot add more items than available stock`: the variant is created with
`onHand = LIMITED_STOCK = 3`, `tracked = true`, and the scenario requests
quantity 10. -/

/-- The `LIMITED_STOCK` constant of the oversell test. -/
def limitedStock : Int := 3

/-- Pass condition of the oversell scenario after the add-item call: when the
response is ok the cart is re-read and, if its items array is non-empty, the
first item quantity is asserted `<= LIMITED_STOCK`; otherwise the status is
asserted to be 400 or 422. -/
def stockAddCheck (addOk : Bool) (addStatus : Nat) (items : List LineItem) : Bool :=
  if addOk then
    match items with
    | [] => true
    | it :: _ => decide (it.quantity ≤ limitedStock)
  else
    [400, 422].contains addStatus

/-! ## C3: item subtotal check
Embeds `Item subtotal equals unit price × quantity` of the price-integrity
suite: `quantity = 3`, `baseSubtotal = item.unitPrice * quantity`,
`itemSubtotal = item.subtotal ?? baseSubtotal`, then three expects. -/

/-- The quantity added by the subtotal test. -/
def priceQty : Int := 3

/-- Pass condition of the subtotal check:
`expect(item.quantity).toBe(quantity)`,
`expect(itemSubtotal).toBe(baseSubtotal)`,
`expect(item.total).toBeGreaterThanOrEqual(itemSubtotal)`,
with `itemSubtotal` falling back to `baseSubtotal` when the field is absent. -/
def itemSubtotalCheck (it : LineItem) : Bool :=
  let baseSubtotal := it.unitPrice * priceQty
  let itemSubtotal := it.subtotal.getD baseSubtotal
  decide (it.quantity = priceQty) && decide (itemSubtotal = baseSubtotal)
    && decide (itemSubtotal ≤ it.total)

/-! ## C6: unique-identifier generators
Two versions of the test-data factory exist. The newer one combines the
millisecond timestamp with a random suffix; the older one uses the
timestamp alone. Each is embedded with its actual inputs: the timestamp,
and (only where the source calls `Math.random`) the random suffix drawn. -/

/-- The `generateEmail` of the newer factory:
`prefix_timestamp_random6chars@example.com`. -/
def generateEmail003 (pre : String) (timestamp : Nat) (rand : String) : String :=
  pre ++ "_" ++ toString timestamp ++ "_" ++ rand ++ "@example.com"

/-- The `generateEmail` of the older factory: `prefix_timestamp@example.com`;
the source calls no random source, so the timestamp is its only per-call
input. -/
def generateEmail004 (pre : String) (timestamp : Nat) : String :=
  pre ++ "_" ++ toString timestamp ++ "@example.com"

/-- The `generateProductCode` of the older factory:
`(prefix_timestamp).toUpperCase()`; again no random source is consulted. -/
def generateProductCode004 (pre : String) (timestamp : Nat) : String :=
  (pre ++ "_" ++ toString timestamp).toUpper

/-! ## C1 and C5: the Buy Now checkout scenario
Embeds `check-out.spec.ts`, test `User can complete order with payment
(Buy Now)`. The scenario is a strictly ordered sequence of calls; every
Playwright `expect` aborts the test when it fails, so the run is modelled
as a step list executed in order, producing the list of calls actually
issued, the checkout states asserted (in assertion order) and the final
verdict. -/

/-- The outbound calls of the Buy Now scenario, in source order. Login is a
precondition handled by the client model, not a scenario step. -/
inductive Step
  | createCart
  | addItem
  | putAddress
  | getShipMethods
  | selectShipping
  | getPayMethods
  | selectPayment
  | complete
deriving DecidableEq

/-- Outcome of running a scenario: the calls issued, the checkout-state
assertions made (by expected state, in order), and whether the test passed. -/
structure RunResult where
  calls : List Step
  statesAsserted : List String
  passed : Bool
deriving DecidableEq

/-- The environment of one Buy Now run: the responses the platform returns
to each call, in order. -/
structure BuyNowEnv where
  cartResp : ApiResp
  addItemResp : ApiResp
  addressResp : ApiResp
  shipMethodsResp : MethodsResp
  selectShippingResp : ApiResp
  payMethodsResp : MethodsResp
  selectPaymentResp : ApiResp
  completeResp : ApiResp
deriving DecidableEq

/-- The full call sequence of a completed Buy Now run. -/
def buyNowFullCalls : List Step :=
  [.createCart, .addItem, .putAddress, .getShipMethods, .selectShipping,
   .getPayMethods, .selectPayment, .complete]

/-- The checkout states the Buy Now scenario asserts, in order. -/
def buyNowStates : List String :=
  ["addressed", "shipping_selected", "payment_selected", "completed"]

/-- Step 7 of the Buy Now scenario sends
`PATCH /api/v2/shop/orders/:token/complete` with the body literal `\x7b\x7d`:
an empty JSON object, modelled as an empty field list. -/
def completeRequestBody : List (String × String) := []

/-- The three assertions made on the completion response body:
`checkoutState = completed`, `state = new`, `total > 0`. -/
def completionCheck (o : Order) : Bool :=
  (o.checkoutState == "completed") && (o.state == "new") && decide (0 < o.total)

/-- One step of a Playwright scenario: `guard` is the JavaScript evaluated
before the call (reading `shipments[0].id` of an empty array throws,
aborting the test before the call is made), `call` the outbound request,
`okCheck` the `expect`s on the response made before any checkout-state
assertion, `stateLabel` the checkout state asserted afterwards (when the
step asserts one) and `stateCheck` that assertion. -/
structure ScenStep where
  guard : Bool
  call : Step
  okCheck : Bool
  stateLabel : Option String
  stateCheck : Bool
deriving DecidableEq

/-- Running a scenario: each step aborts the whole test at its first
failing guard or assertion (Playwright `expect` throws), and later steps
run only when every earlier one fully succeeded. -/
def runSteps : List ScenStep → RunResult
  | [] => ⟨[], [], true⟩
  | s :: rest =>
    if !s.guard then ⟨[], [], false⟩ else
    if !s.okCheck then ⟨[s.call], [], false⟩ else
    match s.stateLabel with
    | none =>
      let r := runSteps rest
      ⟨s.call :: r.calls, r.statesAsserted, r.passed⟩
    | some lbl =>
      if !s.stateCheck then ⟨[s.call], [lbl], false⟩ else
      let r := runSteps rest
      ⟨s.call :: r.calls, lbl :: r.statesAsserted, r.passed⟩

/-- The Buy Now scenario as its ordered step list, read off the source
top to bottom: create cart (`expect ok`), add item (`expect ok`), put
address (`expect ok`, then `checkoutState = addressed`), read
`shipments[0].id` and fetch shipping methods (`expect ok`, member list
non-empty), select shipping (`expect ok`, then
`checkoutState = shipping_selected`), read `payments[0].id` of the
shipping response and fetch payment methods (`expect ok`, non-empty),
select payment (`expect ok`, then `checkoutState = payment_selected`),
complete (`expect ok`, then the three completion assertions). -/
def buyNowSteps (env : BuyNowEnv) : List ScenStep :=
  [⟨true, .createCart, env.cartResp.ok, none, true⟩,
   ⟨true, .addItem, env.addItemResp.ok, none, true⟩,
   ⟨true, .putAddress, env.addressResp.ok, some "addressed",
     env.addressResp.order.checkoutState == "addressed"⟩,
   ⟨!env.addressResp.order.shipments.isEmpty, .getShipMethods,
     env.shipMethodsResp.ok && !env.shipMethodsResp.methods.isEmpty, none, true⟩,
   ⟨true, .selectShipping, env.selectShippingResp.ok, some "shipping_selected",
     env.selectShippingResp.order.checkoutState == "shipping_selected"⟩,
   ⟨!env.selectShippingResp.order.payments.isEmpty, .getPayMethods,
     env.payMethodsResp.ok && !env.payMethodsResp.methods.isEmpty, none, true⟩,
   ⟨true, .selectPayment, env.selectPaymentResp.ok, some "payment_selected",
     env.selectPaymentResp.order.checkoutState == "payment_selected"⟩,
   ⟨true, .complete, env.completeResp.ok, some "completed",
     completionCheck env.completeResp.order⟩]

/-- Execution of the Buy Now scenario over an environment. -/
def runBuyNow (env : BuyNowEnv) : RunResult :=
  runSteps (buyNowSteps env)

/-- Deciding whether the first list is an initial segment of the second:
`initSeg a b` decides it. -/
def initSeg {α : Type} [DecidableEq α] : List α → List α → Bool
  | [], _ => true
  | _ :: _, [] => false
  | a :: as, b :: bs => a == b && initSeg as bs

/-! ## C1 counterexample side: the stock-decrement checkout
Embeds the checkout portion of `stock-validation.spec.ts`, test
`Stock is decremented after successful order`: the same business calls as
Buy Now, but shipping selection is guarded by
`if (shipmentId) ... if (shippingMethodsResp.ok()) ... if (members.length > 0)`,
payment selection by the analogous conditionals, the two PATCH responses
are never checked, and no checkout state is asserted until completion. -/

/-- The outbound calls of the stock-decrement checkout, in source order.
`getOrder1`/`getOrder2` are the cart re-reads used to discover the
shipment and payment ids; `getVariant` is the post-completion stock read. -/
inductive DStep
  | createCart
  | addItem
  | putAddress
  | getOrder1
  | getShipMethods
  | selectShipping
  | getOrder2
  | getPayMethods
  | selectPayment
  | complete
  | getVariant
deriving DecidableEq

/-- Run outcome of the stock-decrement checkout. -/
structure DRunResult where
  calls : List DStep
  statesAsserted : List String
  passed : Bool
deriving DecidableEq

/-- The `INITIAL_STOCK` constant of the stock-decrement test. -/
def initialStock : Int := 5

/-- Environment of one stock-decrement run: responses in call order, plus
the `onHand`/`onHold` fields of the final variant read. -/
structure StockDecEnv where
  cartResp : ApiResp
  addItemResp : ApiResp
  addressResp : ApiResp
  orderResp1 : ApiResp
  shipMethodsResp : MethodsResp
  orderResp2 : ApiResp
  payMethodsResp : MethodsResp
  completeResp : ApiResp
  afterOnHand : Int
  afterOnHold : Int
deriving DecidableEq

/-- Execution of the stock-decrement checkout. The shipping and payment
selection blocks are conditional: when the re-read order exposes no
shipment (or no payment), or the methods call fails or returns no member,
the block is skipped silently and the run continues. The two selection
PATCH responses are issued but never asserted. -/
def runStockDec (env : StockDecEnv) : DRunResult :=
  if !env.cartResp.ok then ⟨[.createCart], [], false⟩ else
  if !env.addItemResp.ok then ⟨[.createCart, .addItem], [], false⟩ else
  if !env.addressResp.ok then ⟨[.createCart, .addItem, .putAddress], [], false⟩ else
  let shipCalls : List DStep :=
    match env.orderResp1.order.shipments with
    | [] => []
    | _ :: _ =>
      [.getShipMethods] ++
        (if env.shipMethodsResp.ok && !env.shipMethodsResp.methods.isEmpty then
          [.selectShipping] else [])
  let payCalls : List DStep :=
    match env.orderResp2.order.payments with
    | [] => []
    | _ :: _ =>
      [.getPayMethods] ++
        (if env.payMethodsResp.ok && !env.payMethodsResp.methods.isEmpty then
          [.selectPayment] else [])
  let calls : List DStep :=
    [.createCart, .addItem, .putAddress, .getOrder1] ++ shipCalls
      ++ [.getOrder2] ++ payCalls ++ [.complete]
  if !env.completeResp.ok then ⟨calls, [], false⟩ else
  if env.completeResp.order.checkoutState != "completed" then
    ⟨calls, ["completed"], false⟩ else
  ⟨calls ++ [.getVariant], ["completed"],
    decide (env.afterOnHand < initialStock) || decide (0 < env.afterOnHold)⟩

/-! ## C8 and C10: the authenticated HTTP clients
Embeds `BaseApiClient` (token field, `validateToken`, the five verb
wrappers) and the login methods `AdminClient.login`,
`ShopClient.login_token` and the alternate `AdminClient.login`, which share
the same logic: POST the token endpoint; when the response is not ok, throw
with the status before touching the stored token; otherwise store
`body.token`. -/

/-- Client state: `token` is `none` for the JavaScript `null`/`undefined`
(the constructor initializes it to `null`; an ok login response whose body
lacks a `token` field stores `undefined`). -/
structure ClientState where
  token : Option String
deriving DecidableEq

/-- JavaScript truthiness of `this.token`, as tested by
`if (!this.token)` in `validateToken`: `null`/`undefined` and the empty
string are falsy. -/
def tokenTruthy : Option String → Bool
  | none => false
  | some s => s != ""

/-- The five verb wrappers of the clients. -/
inductive Verb
  | get
  | post
  | put
  | patch
  | delete
deriving DecidableEq

/-- Outcome of one verb-wrapper call: either the explicit
`Not authenticated. Please login first.` error thrown by `validateToken`
before any outbound request, or the outbound request decorated with the
bearer token. -/
inductive CallOutcome
  | notAuthenticated
  | requested (v : Verb) (endpoint : String) (bearer : String)
deriving DecidableEq

/-- A verb wrapper (`get`/`post`/`put`/`patch`/`delete`): each first runs
`validateToken`, throwing when the stored token is falsy, then issues the
request with the `Authorization: Bearer` header. -/
def verbCall (v : Verb) (st : ClientState) (endpoint : String) : CallOutcome :=
  if tokenTruthy st.token then
    .requested v endpoint (st.token.getD "")
  else
    .notAuthenticated

/-- A token-endpoint response: `ok`, `status`, and the `token` field of the
JSON body (`none` when the field is absent). -/
structure LoginResp where
  ok : Bool
  status : Nat
  token : Option String
deriving DecidableEq

/-- The shared login logic: throw with the status when the response is not
ok (the stored token is not touched), otherwise store `body.token`. -/
def loginStep (st : ClientState) (resp : LoginResp) : Except String ClientState :=
  if resp.ok then
    .ok { token := resp.token }
  else
    .error ("login failed: " ++ toString resp.status)

/-- The client state after a login attempt: the new state on success, the
previous state when the login threw. -/
def stateAfterLogin (st : ClientState) (resp : LoginResp) : ClientState :=
  match loginStep st resp with
  | .ok st2 => st2
  | .error _ => st

/-! ## C7: teardown
Embeds the `afterAll` hooks. In `check-out.spec.ts` (and the shopping-cart
suite) the cart loop deletes each recorded cart and only logs a warning
when the response is not ok and not 404; the user-credentials deletion is
wrapped in `expect(deleteResp.ok()).toBeTruthy()`. In
`product-inventory.spec.ts` the product loop has the same log-only shape
and there is no asserted deletion. -/

/-- The warnings logged by a best-effort deletion loop: one status per
response that is neither ok nor 404. -/
def cleanupLogs (rs : List DelResp) : List Nat :=
  rs.filterMap (fun r => if !r.ok && r.status != 404 then some r.status else none)

/-- The `afterAll` of the checkout suite: cart deletions are best-effort
(logged only), then the user-credentials deletion is asserted with
`expect`, so the hook outcome is exactly that response being ok. Returns
the logged warnings and whether the hook passed. -/
def checkoutTeardown (cartResps : List DelResp) (userResp : DelResp) :
    List Nat × Bool :=
  (cleanupLogs cartResps, userResp.ok)

/-- The `afterAll` of the product-inventory suite: product deletions are
best-effort only; the hook never fails. -/
def productTeardown (productResps : List DelResp) : List Nat × Bool :=
  (cleanupLogs productResps, true)

/-! ## Concrete environments used to evaluate the scenario models -/

/-- A platform behaving as the Buy Now scenario expects: every call ok, the
checkout state advancing through the four states, a shipment and a payment
sub-resource present, positive totals. -/
def goodEnv : BuyNowEnv :=
  ⟨⟨true, 201, ⟨"cart", "cart", 0, [], []⟩⟩,
   ⟨true, 201, ⟨"cart", "cart", 1999, [], []⟩⟩,
   ⟨true, 200, ⟨"addressed", "cart", 1999, [7], []⟩⟩,
   ⟨true, ["ups"]⟩,
   ⟨true, 200, ⟨"shipping_selected", "cart", 2499, [7], [9]⟩⟩,
   ⟨true, ["cash_on_delivery"]⟩,
   ⟨true, 200, ⟨"payment_selected", "cart", 2499, [7], [9]⟩⟩,
   ⟨true, 200, ⟨"completed", "new", 2499, [7], [9]⟩⟩⟩

/-- A platform whose address call succeeds but leaves the order in state
`cart`: the addressed assertion fails. -/
def badAddressEnv : BuyNowEnv :=
  ⟨⟨true, 201, ⟨"cart", "cart", 0, [], []⟩⟩,
   ⟨true, 201, ⟨"cart", "cart", 1999, [], []⟩⟩,
   ⟨true, 200, ⟨"cart", "cart", 1999, [7], []⟩⟩,
   ⟨true, ["ups"]⟩,
   ⟨true, 200, ⟨"shipping_selected", "cart", 2499, [7], [9]⟩⟩,
   ⟨true, ["cash_on_delivery"]⟩,
   ⟨true, 200, ⟨"payment_selected", "cart", 2499, [7], [9]⟩⟩,
   ⟨true, 200, ⟨"completed", "new", 2499, [7], [9]⟩⟩⟩

/-- A platform under which the stock-decrement checkout re-reads an order
exposing no shipment and no payment sub-resource, yet completes: the
selection steps are skipped silently and the test still passes. -/
def skipEnv : StockDecEnv :=
  ⟨⟨true, 201, ⟨"cart", "cart", 0, [], []⟩⟩,
   ⟨true, 201, ⟨"cart", "cart", 1999, [], []⟩⟩,
   ⟨true, 200, ⟨"addressed", "cart", 1999, [], []⟩⟩,
   ⟨true, 200, ⟨"addressed", "cart", 1999, [], []⟩⟩,
   ⟨true, []⟩,
   ⟨true, 200, ⟨"addressed", "cart", 1999, [], []⟩⟩,
   ⟨true, []⟩,
   ⟨true, 200, ⟨"completed", "new", 2499, [], []⟩⟩,
   4, 0⟩

/-! # Theorems -/

/-- C9: in the cross-user authorization scenario the check on the status of
user B reading the cart of user A passes exactly for the statuses 403 and
404, and for no other status. -/
theorem crossUserCart_status_403_404 :
    ∀ s : Nat, crossUserCartCheck s = true ↔ (s = 403 ∨ s = 404) := by
  intro s
  simp [crossUserCartCheck]

/-- Witness for C9: the check passes at 403. -/
theorem crossUserCart_status_403_404_witness : crossUserCartCheck 403 = true :=
  (crossUserCart_status_403_404 403).mpr (Or.inl rfl)

/-- C4 counterexample: the negative-quantity scenario passes on a response
that is not ok with status 500, although 500 is neither 400 nor 422 — so
the claim that both the zero and the negative case assert a status in
\x7b400, 422\x7d is false for the negative case, which asserts only that
the response is not ok. -/
theorem negQty_status_not_asserted :
    negQtyCheck false 500 = true ∧ ¬ (500 = 400 ∨ 500 = 422) := by
  constructor
  · rfl
  · omega

/-- C4 amended: the zero-quantity scenario asserts that the response is not
ok and that its status is 400 or 422; the negative-quantity scenario
asserts only that the response is not ok, logging the status without
constraining it. -/
theorem qty_rejection_checks :
    (∀ (ok : Bool) (s : Nat),
        zeroQtyCheck ok s = true ↔ (ok = false ∧ (s = 400 ∨ s = 422)))
    ∧ (∀ (ok : Bool) (s : Nat), negQtyCheck ok s = true ↔ ok = false) := by
  constructor
  · intro ok s
    cases ok <;> simp [zeroQtyCheck]
  · intro ok s
    cases ok <;> simp [negQtyCheck]

/-- Witness for C4 amended: concrete evaluations through the theorem. -/
theorem qty_rejection_checks_witness :
    zeroQtyCheck false 422 = true ∧ negQtyCheck false 500 = true :=
  ⟨(qty_rejection_checks.1 false 422).mpr ⟨rfl, Or.inr rfl⟩,
   (qty_rejection_checks.2 false 500).mpr rfl⟩

/-- C2: the oversell check passes exactly when either the add-item response
is not ok with status 400 or 422, or the response is ok and the first line
item of the re-read cart (the only item this scenario can create) has
quantity at most `LIMITED_STOCK`; in particular it can never pass on an ok
response whose resulting line item exceeds the stock. -/
theorem stockAdd_reject_or_cap :
    ∀ (ok : Bool) (s : Nat) (items : List LineItem),
      (stockAddCheck ok s items = true ↔
        ((ok = false ∧ (s = 400 ∨ s = 422)) ∨
         (ok = true ∧ (items = [] ∨
            ∃ it tl, items = it :: tl ∧ it.quantity ≤ limitedStock))))
      ∧ (∀ (it : LineItem) (tl : List LineItem), limitedStock < it.quantity →
          stockAddCheck true s (it :: tl) = false) := by
  intro ok s items
  constructor
  · cases ok <;> cases items <;> simp [stockAddCheck]
  · intro it tl h
    simp [stockAddCheck]
    omega

/-- Witness for C2: a rejection with 422 passes; an ok response with a
line item of quantity 10 against stock 3 fails. -/
theorem stockAdd_reject_or_cap_witness :
    stockAddCheck false 422 [] = true
    ∧ stockAddCheck true 201 [⟨10, 1999, none, 19990⟩] = false :=
  ⟨((stockAdd_reject_or_cap false 422 []).1).mpr (Or.inl ⟨rfl, Or.inr rfl⟩),
   (stockAdd_reject_or_cap true 201 []).2 ⟨10, 1999, none, 19990⟩ [] (by decide)⟩

/-- C3 counterexample: the subtotal check passes on an item whose
`subtotal` field is absent (quantity 3, unit price 100, no subtotal,
total 300) — the source falls back to `item.subtotal ?? baseSubtotal`,
making the subtotal identity vacuous in that case, so the claim that the
check cannot pass for an item without a subtotal field is false. -/
theorem itemSubtotal_passes_without_subtotal :
    itemSubtotalCheck ⟨3, 100, none, 300⟩ = true
    ∧ (⟨3, 100, none, 300⟩ : LineItem).subtotal = none := by
  constructor <;> rfl

/-- C3 amended: the subtotal check passes exactly when the quantity is 3,
any present `subtotal` field equals `unitPrice × 3`, and the total is at
least the subtotal (falling back to `unitPrice × 3` when the field is
absent); when `subtotal` is absent the identity is not checked. -/
theorem itemSubtotal_identity :
    ∀ it : LineItem,
      itemSubtotalCheck it = true ↔
        (it.quantity = priceQty ∧
         (∀ s, it.subtotal = some s → s = it.unitPrice * priceQty) ∧
         it.subtotal.getD (it.unitPrice * priceQty) ≤ it.total) := by
  intro it
  cases h : it.subtotal <;> simp [itemSubtotalCheck, h] <;> tauto

/-- Witness for C3 amended: a consistent item passes through the theorem. -/
theorem itemSubtotal_identity_witness :
    itemSubtotalCheck ⟨3, 100, some 300, 350⟩ = true :=
  (itemSubtotal_identity ⟨3, 100, some 300, 350⟩).mpr
    ⟨rfl, by intro s hs; cases hs; rfl, by decide⟩

/-- The calls a run issues form an initial segment of the full call list
of its scenario. -/
theorem runSteps_calls_initSeg (l : List ScenStep) :
    initSeg (runSteps l).calls (List.map ScenStep.call l) = true := by
  induction l with
  | nil => rfl
  | cons s rest ih =>
    simp only [runSteps, List.map]
    split
    · rfl
    · split
      · simp [initSeg]
      · split
        · simpa [initSeg] using ih
        · split
          · simp [initSeg]
          · simpa [initSeg] using ih

/-- The state assertions a run makes form an initial segment of the full
assertion list of its scenario. -/
theorem runSteps_states_initSeg (l : List ScenStep) :
    initSeg (runSteps l).statesAsserted (List.filterMap ScenStep.stateLabel l)
      = true := by
  induction l with
  | nil => rfl
  | cons s rest ih =>
    simp only [runSteps]
    split
    · rfl
    · split
      · rfl
      · split
        · next heq =>
          simpa [List.filterMap_cons, heq, initSeg] using ih
        · next lbl heq =>
          split
          · simp [List.filterMap_cons, heq, initSeg]
          · simpa [List.filterMap_cons, heq, initSeg] using ih

/-- A passing run made every call and every state assertion of its
scenario. -/
theorem runSteps_passed_all (l : List ScenStep) :
    (runSteps l).passed = true →
      (runSteps l).calls = List.map ScenStep.call l
        ∧ (runSteps l).statesAsserted = List.filterMap ScenStep.stateLabel l := by
  induction l with
  | nil => intro; exact ⟨rfl, rfl⟩
  | cons s rest ih =>
    simp only [runSteps, List.map]
    split
    · simp
    · split
      · simp
      · split
        · next heq =>
          intro h
          obtain ⟨h1, h2⟩ := ih h
          simp [List.filterMap_cons, heq, h1, h2]
        · next lbl heq =>
          split
          · simp
          · intro h
            obtain ⟨h1, h2⟩ := ih h
            simp [List.filterMap_cons, heq, h1, h2]

/-- A passing run discharged the guard, the response assertions, and, for
every step that asserts a checkout state, that state assertion. -/
theorem runSteps_passed_checks (l : List ScenStep) :
    (runSteps l).passed = true →
      ∀ s ∈ l, s.guard = true ∧ s.okCheck = true
        ∧ (∀ lbl, s.stateLabel = some lbl → s.stateCheck = true) := by
  induction l with
  | nil => intro _ s hs; cases hs
  | cons s rest ih =>
    simp only [runSteps]
    split
    · simp
    · next hg =>
      split
      · simp
      · next hok =>
        split
        · next heq =>
          intro h t ht
          rcases List.mem_cons.mp ht with h1 | h1
          · subst h1
            refine ⟨by revert hg; cases t.guard <;> simp,
                    by revert hok; cases t.okCheck <;> simp, ?_⟩
            intro lbl hlbl
            rw [heq] at hlbl
            cases hlbl
          · exact ih h t h1
        · next lbl heq =>
          split
          · simp
          · next hsc =>
            intro h t ht
            rcases List.mem_cons.mp ht with h1 | h1
            · subst h1
              exact ⟨by revert hg; cases t.guard <;> simp,
                     by revert hok; cases t.okCheck <;> simp,
                     fun _ _ => by revert hsc; cases t.stateCheck <;> simp⟩
            · exact ih h t h1

/-- C5: the completion step sends its call with an empty body, and its
check passes exactly when the resulting order has checkout state
`completed`, order state `new` and total strictly positive; moreover a
passing Buy Now run forces all three on the completion response. -/
theorem completion_contract :
    completeRequestBody = []
    ∧ (∀ o : Order, completionCheck o = true ↔
        (o.checkoutState = "completed" ∧ o.state = "new" ∧ 0 < o.total))
    ∧ (∀ env : BuyNowEnv, (runBuyNow env).passed = true →
        completionCheck env.completeResp.order = true) := by
  refine ⟨rfl, ?_, ?_⟩
  · intro o
    simp [completionCheck, and_assoc]
  · intro env h
    have hm :
        (⟨true, .complete, env.completeResp.ok, some "completed",
          completionCheck env.completeResp.order⟩ : ScenStep) ∈ buyNowSteps env := by
      simp [buyNowSteps]
    exact (runSteps_passed_checks (buyNowSteps env) h _ hm).2.2 "completed" rfl

/-- Witness for C5: a concrete passing run yields the completion check. -/
theorem completion_contract_witness :
    completionCheck goodEnv.completeResp.order = true :=
  completion_contract.2.2 goodEnv (by decide)

/-- C1 counterexample: in the stock-decrement checkout of
`stock-validation.spec.ts` (one of the two checkout drivers the claim is
about), a run in which the re-read order exposes no shipment silently
skips the shipping-selection call, asserts no intermediate checkout state,
and still proceeds to the completion call and passes — so the claim that
the scenario asserts the state after each transition and skips no step is
false for this scenario. -/
theorem stockDec_skips_steps :
    (runStockDec skipEnv).passed = true
    ∧ DStep.selectShipping ∉ (runStockDec skipEnv).calls
    ∧ DStep.selectPayment ∉ (runStockDec skipEnv).calls
    ∧ DStep.complete ∈ (runStockDec skipEnv).calls
    ∧ (runStockDec skipEnv).statesAsserted = ["completed"] := by
  refine ⟨rfl, by decide, by decide, by decide, rfl⟩

/-- C1 amended: the Buy Now scenario of `check-out.spec.ts` does satisfy
the claim: its calls always form an initial segment of the fixed call
order, the checkout-state assertions are made in the strict forward order
addressed, shipping then payment selected, completed, a passing run makes
all calls and all four assertions, and a failed assertion (here: the
addressed check, and a failed cart creation) stops the scenario before any
later call. The stock-decrement checkout keeps the call order but may skip
the selection steps silently (see the counterexample). -/
theorem buyNow_forward_failfast :
    ∀ env : BuyNowEnv,
      initSeg (runBuyNow env).calls buyNowFullCalls = true
      ∧ initSeg (runBuyNow env).statesAsserted buyNowStates = true
      ∧ ((runBuyNow env).passed = true →
          (runBuyNow env).calls = buyNowFullCalls
            ∧ (runBuyNow env).statesAsserted = buyNowStates)
      ∧ (env.cartResp.ok = true → env.addItemResp.ok = true →
          env.addressResp.ok = true →
          env.addressResp.order.checkoutState ≠ "addressed" →
          (runBuyNow env).calls = [Step.createCart, Step.addItem, Step.putAddress]
            ∧ (runBuyNow env).passed = false)
      ∧ (env.cartResp.ok = false →
          (runBuyNow env).calls = [Step.createCart]
            ∧ (runBuyNow env).passed = false) := by
  intro env
  refine ⟨runSteps_calls_initSeg (buyNowSteps env),
          runSteps_states_initSeg (buyNowSteps env),
          runSteps_passed_all (buyNowSteps env), ?_, ?_⟩
  · intro h1 h2 h3 h4
    have h4b : (env.addressResp.order.checkoutState == "addressed") = false := by
      simpa using h4
    simp [runBuyNow, buyNowSteps, runSteps, h1, h2, h3, h4b]
  · intro h1
    simp [runBuyNow, buyNowSteps, runSteps, h1]

/-- Witness for C1 amended: the forward-progress conjunct evaluated on a
passing platform, and the fail-fast conjunct on a platform whose address
call leaves the order in state `cart`. -/
theorem buyNow_forward_failfast_witness :
    ((runBuyNow goodEnv).calls = buyNowFullCalls
      ∧ (runBuyNow goodEnv).statesAsserted = buyNowStates)
    ∧ ((runBuyNow badAddressEnv).calls
          = [Step.createCart, Step.addItem, Step.putAddress]
        ∧ (runBuyNow badAddressEnv).passed = false) :=
  ⟨(buyNow_forward_failfast goodEnv).2.2.1 (by decide),
   (buyNow_forward_failfast badAddressEnv).2.2.2.1 rfl rfl rfl (by decide)⟩

/-- C6 counterexample: the older factory generators derive their output
from the prefix and the millisecond timestamp alone — no random source is
consulted — so two invocations observing the same millisecond return the
same string, not distinct ones as the claim requires; the third conjunct
evaluates one output concretely. -/
theorem generators_collide_same_millisecond :
    generateEmail004 "security_user_a" 1760140800000
        = generateEmail004 "security_user_a" 1760140800000
    ∧ generateProductCode004 "limited_add" 1760140800000
        = generateProductCode004 "limited_add" 1760140800000
    ∧ generateEmail004 "qa" 1760140800000 = "qa_1760140800000@example.com" := by
  refine ⟨rfl, rfl, by decide⟩

/-- Appending is compatible with taking the character data of a string. -/
theorem string_data_append (a b : String) : (a ++ b).data = a.data ++ b.data := by
  cases a
  cases b
  rfl

/-- A common right factor of a string equation cancels. -/
theorem string_append_cancel_right (a b c : String) (h : a ++ c = b ++ c) :
    a = b := by
  cases a
  cases b
  have hd := congrArg String.data h
  rw [string_data_append, string_data_append] at hd
  exact congrArg String.mk (List.append_cancel_right hd)

/-- A common left factor of a string equation cancels. -/
theorem string_append_cancel_left (a b c : String) (h : a ++ b = a ++ c) :
    b = c := by
  cases b
  cases c
  have hd := congrArg String.data h
  rw [string_data_append, string_data_append] at hd
  exact congrArg String.mk (List.append_cancel_left hd)

/-- C6 amended: the newer factory `generateEmail` combines the timestamp
with the random suffix, and two invocations in the same millisecond with
different random draws always return different strings; the older
factory generators (timestamp only) collide in that situation, as the
counterexample shows. -/
theorem generateEmail_random_distinct :
    ∀ (p : String) (t : Nat) (r₁ r₂ : String), r₁ ≠ r₂ →
      generateEmail003 p t r₁ ≠ generateEmail003 p t r₂ := by
  intro p t r₁ r₂ hne h
  apply hne
  unfold generateEmail003 at h
  exact string_append_cancel_left _ _ _ (string_append_cancel_right _ _ _ h)

/-- Witness for C6 amended: two same-millisecond draws give different
emails. -/
theorem generateEmail_random_distinct_witness :
    generateEmail003 "qa" 1760140800000 "aaaaaa"
      ≠ generateEmail003 "qa" 1760140800000 "bbbbbb" :=
  generateEmail_random_distinct "qa" 1760140800000 "aaaaaa" "bbbbbb" (by decide)

/-- C7 counterexample: with every cart deletion fine and the
user-credentials deletion failing with status 500, the `afterAll` hook of
the checkout suite fails — the user deletion is wrapped in `expect`, so a
deletion outcome in teardown can fail the suite, contrary to the claim. -/
theorem teardown_user_delete_asserted :
    (checkoutTeardown [⟨true, 204⟩] ⟨false, 500⟩).2 = false := rfl

/-- C7 amended: cart and product deletions are best-effort — a 404 result
is never logged (treated as success) and no cart or product outcome
affects the verdict, every logged status coming from a non-ok, non-404
response — but the checkout-suite hook passes exactly when the
user-credentials deletion response is ok. -/
theorem teardown_best_effort_except_user :
    (∀ (cs : List DelResp) (u : DelResp),
        (checkoutTeardown cs u).2 = true ↔ u.ok = true)
    ∧ (∀ (cs : List DelResp) (u : DelResp) (s : Nat),
        s ∈ (checkoutTeardown cs u).1 →
          s ≠ 404 ∧ ∃ r ∈ cs, r.ok = false ∧ r.status = s)
    ∧ (∀ ps : List DelResp, (productTeardown ps).2 = true) := by
  refine ⟨fun cs u => Iff.rfl, ?_, fun ps => rfl⟩
  intro cs u s hs
  simp only [checkoutTeardown, cleanupLogs, List.mem_filterMap] at hs
  obtain ⟨r, hr, hf⟩ := hs
  by_cases hok : r.ok
  · simp [hok] at hf
  · by_cases h404 : r.status = 404
    · simp [hok, h404] at hf
    · simp [hok, h404] at hf
      exact ⟨by omega, r, hr, by simp [hok], hf⟩

/-- Witness for C7 amended: the hook passes when the user deletion is ok,
and a 500 cart warning is a real non-404 failure. -/
theorem teardown_best_effort_except_user_witness :
    ((checkoutTeardown [⟨false, 500⟩] ⟨true, 204⟩).2 = true)
    ∧ ((500 : Nat) ≠ 404
        ∧ ∃ r ∈ [(⟨false, 500⟩ : DelResp)], r.ok = false ∧ r.status = 500) :=
  ⟨(teardown_best_effort_except_user.1 [⟨false, 500⟩] ⟨true, 204⟩).mpr rfl,
   teardown_best_effort_except_user.2.1 [⟨false, 500⟩] ⟨true, 204⟩ 500 (by decide)⟩

/-- C8: on a client with no stored token every verb wrapper returns the
not-authenticated error and issues no request; after a successful login
that stored the token of the response body (the token endpoint returns a
non-empty token on success), every verb wrapper issues its request with
that bearer token and the error branch is unreachable. -/
theorem verbs_require_login :
    (∀ (v : Verb) (e : String),
        verbCall v ⟨none⟩ e = CallOutcome.notAuthenticated)
    ∧ (∀ (st : ClientState) (resp : LoginResp) (t : String) (v : Verb) (e : String),
        resp.ok = true → resp.token = some t → t ≠ "" →
        verbCall v (stateAfterLogin st resp) e = CallOutcome.requested v e t) := by
  refine ⟨fun v e => rfl, ?_⟩
  intro st resp t v e hok htok ht
  simp [stateAfterLogin, loginStep, hok, htok, verbCall, tokenTruthy, ht]

/-- Witness for C8: an unauthenticated GET errors; a POST after a login
that stored the token `jwt` carries that bearer. -/
theorem verbs_require_login_witness :
    verbCall Verb.get ⟨none⟩ "/api/v2/admin/products"
        = CallOutcome.notAuthenticated
    ∧ verbCall Verb.post (stateAfterLogin ⟨none⟩ ⟨true, 200, some "jwt"⟩)
        "/api/v2/shop/orders"
        = CallOutcome.requested Verb.post "/api/v2/shop/orders" "jwt" :=
  ⟨verbs_require_login.1 Verb.get "/api/v2/admin/products",
   verbs_require_login.2 ⟨none⟩ ⟨true, 200, some "jwt"⟩ "jwt" Verb.post
     "/api/v2/shop/orders" rfl rfl (by decide)⟩

/-- C10: login is atomic on the stored token: a not-ok response makes
login throw with the status while the stored token keeps its previous
value — so a never-authenticated client still errors on every verb — and
an ok response stores exactly the token field of the body. -/
theorem login_atomic :
    ∀ (st : ClientState) (resp : LoginResp),
      (resp.ok = false →
        loginStep st resp
            = Except.error ("login failed: " ++ toString resp.status)
          ∧ stateAfterLogin st resp = st)
      ∧ (resp.ok = true → stateAfterLogin st resp = ⟨resp.token⟩)
      ∧ (st.token = none → resp.ok = false →
          ∀ (v : Verb) (e : String),
            verbCall v (stateAfterLogin st resp) e
              = CallOutcome.notAuthenticated) := by
  intro st resp
  refine ⟨?_, ?_, ?_⟩
  · intro hok
    simp [loginStep, stateAfterLogin, hok]
  · intro hok
    simp [loginStep, stateAfterLogin, hok]
  · intro htok hok v e
    obtain ⟨tok⟩ := st
    cases htok
    simp [loginStep, stateAfterLogin, hok, verbCall, tokenTruthy]

/-- Witness for C10: a failed login on a fresh client leaves it
unauthenticated and a later GET still errors; an ok login stores the body
token. -/
theorem login_atomic_witness :
    stateAfterLogin ⟨none⟩ ⟨false, 401, none⟩ = ⟨none⟩
    ∧ verbCall Verb.get (stateAfterLogin ⟨none⟩ ⟨false, 401, none⟩) "/api/v2/admin/orders"
        = CallOutcome.notAuthenticated
    ∧ stateAfterLogin ⟨none⟩ ⟨true, 200, some "jwt"⟩ = ⟨some "jwt"⟩ :=
  ⟨((login_atomic ⟨none⟩ ⟨false, 401, none⟩).1 rfl).2,
   (login_atomic ⟨none⟩ ⟨false, 401, none⟩).2.2 rfl rfl Verb.get "/api/v2/admin/orders",
   (login_atomic ⟨none⟩ ⟨true, 200, some "jwt"⟩).2.1 rfl⟩
